import Mathlib

/-!
# Verification of the rv-piped-emulator five-stage RISC-V pipeline simulator

Shallow embedding of the Python sources:
* `rv_units/control_unit.py`   → `ControlUnit`, `ControlUnit.set_opcode`
* `rv_units/register_file.py`  → `DataRegister` values (as `Int` in the signed
  32-bit range), `RegisterFile` and its `select_register` / `read_data` /
  `write_data` operations
* `rv_units/alu.py`            → `ALU`, `ALU.alu_control`, `ALU.do_op`
* `rv_units/mux.py`            → `MUX1` (and `MUXW`, the same multiplexer
  holding write-back values, see `RVal`)
* `rv_units/data_memory.py`    → `DataMemory.write`, `DataMemory.read`
  (`rv_units/data_memmory.py`, the variant whose docstring names the
  pipelined emulator, is embedded as `DataMemmory.write`)
* `rv_pipelined.py`            → `RiscV` state, the five stage functions and
  `cycle`

Conventions:
* Python `DataRegister` stores 4 big-endian signed bytes; constructing one
  from an out-of-range int raises `OverflowError`.  We carry its value as an
  `Int` and model the range check where the source constructs a register
  from an int (`dataRegisterOfInt`).
* Python dict buses are embedded as `Option` of per-bus structures; the empty
  dict `{}` (the halt sentinel) is `none`.
* Uncaught Python exceptions (`ValueError`, `AttributeError`, `KeyError`,
  `OverflowError`) are `Except.error`; `cycle` catches `ValueError` raised by
  the write-back stage only, exactly as the `try` block in the source does.
* Values travelling towards the register-file write port are either
  `DataRegister` objects or plain Python ints (the EX stage puts the plain
  int `self._alu.result()` on the EX/MEM bus).  Only a `DataRegister` has a
  `.data` attribute, so `RegisterFile.write_data` on a plain int raises
  `AttributeError`.  `RVal` keeps this distinction.
* Python buses alias live `DataRegister` objects of the register file, so a
  successful register write could retroactively change a value already
  latched on a bus.  The embedding snapshots the integer value at read time;
  this agrees with the source on every execution in which no successful
  `write_data` call occurs while the aliased register sits on a bus (in
  particular on all concrete runs proved below, where no register write ever
  succeeds).
-/

/-- Python exceptions that can escape the units (messages elided). -/
inductive RVError where
  | valueError
  | attributeError
  | keyError
  | overflowError
deriving DecidableEq, Repr

/-- A value on the write-back path: either a `DataRegister` object or a plain
Python int.  Only the former survives `RegisterFile.write_data` (which
accesses `.data`). -/
inductive RVal where
  | reg (v : Int)
  | num (v : Int)
deriving DecidableEq, Repr

/-- The integer a Python `int(...)` conversion extracts from either shape. -/
def RVal.toInt : RVal → Int
  | .reg v => v
  | .num v => v

/-- `int(s, 2)` on a string of `0`/`1` characters: unsigned binary value. -/
def binToNat (s : List Char) : Nat :=
  s.foldl (fun a c => 2 * a + (if c = '1' then 1 else 0)) 0

/-- Python string slice `s[a:b]`. -/
def strSlice (s : List Char) (a b : Nat) : List Char :=
  (s.drop a).take (b - a)

/-- `DataRegister(v)` for an int `v`: `v.to_bytes(4, 'big', signed=True)`
raises `OverflowError` unless `v` fits in 32-bit two's complement; the stored
bytes read back as the same value. -/
def dataRegisterOfInt (v : Int) : Except RVError Int :=
  if -2147483648 ≤ v ∧ v < 2147483648 then .ok v else .error .overflowError

/-- `RiscV.imm_gen`: `int(imm, 2)` parses the bit string as an unsigned
binary number, `to_bytes(4, byteorder='big', signed=True)` stores that value
(raising `OverflowError` when out of range) and the resulting `DataRegister`
reads back as the same integer.  Note there is no sign extension step. -/
def imm_gen (imm : List Char) : Except RVError Int :=
  dataRegisterOfInt (binToNat imm)

/-! ## Control unit (`rv_units/control_unit.py`) -/

/-- The seven control signals with their constructor defaults. -/
structure ControlUnit where
  alu_src : Bool := false
  mem_to_reg : Bool := false
  reg_write : Bool := false
  mem_read : Bool := false
  mem_write : Bool := false
  branch : Bool := false
  alu_op : Bool × Bool := (false, false)
deriving DecidableEq, Repr

/-- `ControlUnit.set_opcode`: the decode table.  Fields absent from a case's
`_set_control_signals` dictionary keep their previous value.  The source has
a second `case 0b1100011` arm (labelled BNE); Python's structural match takes
the first matching case, so that arm is unreachable and is not reproduced. -/
def ControlUnit.set_opcode (c : ControlUnit) (opcode : Nat) : ControlUnit :=
  match opcode with
  | 0b0110011 => -- R-type
      { c with alu_src := false, mem_to_reg := false, reg_write := true,
               mem_read := false, mem_write := false, branch := false,
               alu_op := (false, true) }
  | 0b0000011 => -- LW
      { c with alu_src := true, mem_to_reg := true, reg_write := true,
               mem_read := true, mem_write := false, branch := false,
               alu_op := (false, false) }
  | 0b0100011 => -- SW (mem_to_reg left unchanged)
      { c with alu_src := true, reg_write := false, mem_read := false,
               mem_write := true, branch := false, alu_op := (false, false) }
  | 0b1100011 => -- BEQ (mem_to_reg left unchanged)
      { c with alu_src := false, reg_write := false, mem_read := false,
               mem_write := false, branch := true, alu_op := (true, false) }
  | 0b0010011 => -- ADDI
      { c with alu_src := true, mem_to_reg := false, reg_write := true,
               mem_read := false, mem_write := false, branch := false,
               alu_op := (false, false) }
  | _ => c -- unrecognized: only logged, signals untouched

/-! ## Data memory (`rv_units/data_memory.py`)

The backing file is a flat byte store, modelled as a total function
`Nat → Nat` over byte offsets (a fresh `data_memory.bin` is all zeros, and
`seek` past the end followed by `write` zero-fills the gap, so the total
function with default 0 matches the file semantics).  `seek` on a negative
offset raises `ValueError`. -/

/-- `DataMemory.write`: `f.seek(address)` (note: *not* `address*4`) then
write `int(data).to_bytes(4, 'little', signed=True)`. -/
def DataMemory.write (m : Nat → Nat) (address : Int) (data : Int) :
    Except RVError (Nat → Nat) :=
  if 0 ≤ address then
    let adr := address.toNat
    let n := (data % 4294967296).toNat
    .ok fun i =>
      if i = adr then n % 256
      else if i = adr + 1 then n / 256 % 256
      else if i = adr + 2 then n / 65536 % 256
      else if i = adr + 3 then n / 16777216 % 256
      else m i
  else .error .valueError

/-- `DataMemory.read`: `f.seek(address)`, read 4 bytes,
`int.from_bytes(retrieved, 'little', signed=True)`. -/
def DataMemory.read (m : Nat → Nat) (address : Int) : Except RVError Int :=
  if 0 ≤ address then
    let adr := address.toNat
    let u := m adr + 256 * m (adr + 1) + 65536 * m (adr + 2) +
      16777216 * m (adr + 3)
    .ok (if u < 2147483648 then (u : Int) else (u : Int) - 4294967296)
  else .error .valueError

/-- `rv_units/data_memmory.py` (docstring: "Data Memory for the RV32
Pipelined Emulator") differs from the imported module only in seeking to
`address*4`: word index converted to byte offset. -/
def DataMemmory.write (m : Nat → Nat) (address : Int) (data : Int) :
    Except RVError (Nat → Nat) :=
  if 0 ≤ address * 4 then
    let adr := (address * 4).toNat
    let n := (data % 4294967296).toNat
    .ok fun i =>
      if i = adr then n % 256
      else if i = adr + 1 then n / 256 % 256
      else if i = adr + 2 then n / 65536 % 256
      else if i = adr + 3 then n / 16777216 % 256
      else m i
  else .error .valueError

/-! ## Register file (`rv_units/register_file.py`) -/

/-- 32 registers `x0 .. x31` stored by value, plus the two read-port
selections (`select_register` stores the selected index, `read_data` reads
the register it names). -/
structure RegisterFile where
  regs : Nat → Int
  read_data_1 : Nat := 0
  read_data_2 : Nat := 0

/-- `select_register(read_register, to_read_data)`: validates the port
number, then stores the register index for that port. -/
def RegisterFile.select_register (rf : RegisterFile)
    (read_register : Nat) (to_read_data : Nat) : Except RVError RegisterFile :=
  if to_read_data < 1 ∨ 2 < to_read_data then .error .valueError
  else if to_read_data = 1 then .ok { rf with read_data_1 := read_register }
  else .ok { rf with read_data_2 := read_register }

/-- `read_data(read_data)`: validates the port, returns the register whose
index was stored for that port. -/
def RegisterFile.read_data (rf : RegisterFile) (port : Nat) :
    Except RVError Int :=
  if port < 1 ∨ 2 < port then .error .valueError
  else if port = 1 then .ok (rf.regs rf.read_data_1)
  else .ok (rf.regs rf.read_data_2)

/-- `write_data(write_register, value)`: raises `ValueError` for `x0`;
otherwise accesses `value.data`, which raises `AttributeError` when `value`
is a plain int, and `getattr(self, f'x{n}')` raises `AttributeError` when
there is no register `x{n}`. -/
def RegisterFile.write_data (rf : RegisterFile) (write_register : Nat)
    (value : RVal) : Except RVError RegisterFile :=
  if write_register = 0 then .error .valueError
  else
    match value with
    | .num _ => .error .attributeError
    | .reg w =>
      if write_register ≤ 31 then
        .ok { rf with regs := fun i => if i = write_register then w else rf.regs i }
      else .error .attributeError

/-! ## Multiplexers (`rv_units/mux.py`) -/

/-- `MUX1` holding plain integer-valued signals (`int(...)` of whatever is
stored is what every consumer uses, so the int/`DataRegister` distinction is
immaterial on these paths). -/
structure MUX1 where
  input0 : Int := 0
  input1 : Int := 0
  sel : Nat := 0
deriving DecidableEq, Repr

/-- `MUX1.write(value, select)`: slot 1 for select 1, slot 0 otherwise. -/
def MUX1.write (m : MUX1) (value : Int) (s : Nat) : MUX1 :=
  match s with
  | 1 => { m with input1 := value }
  | _ => { m with input0 := value }

/-- `MUX1.read()`: the slot at the current select index. -/
def MUX1.read (m : MUX1) : Int :=
  match m.sel with
  | 1 => m.input1
  | _ => m.input0

/-- `MUX1.set_select(select)`: `ValueError` outside `{0, 1}` (the argument is
a Python int; negative values cannot arise from `int(bool)`). -/
def MUX1.set_select (m : MUX1) (s : Nat) : Except RVError MUX1 :=
  if 1 < s then .error .valueError else .ok { m with sel := s }

/-- The write-back multiplexer: the same `MUX1` class, but its slots hold
the objects the write-back stage loads (`dmem_read_data`, a `DataRegister`,
and `alu_result`, a plain int for any instruction that went through the EX
stage), so the `RVal` tag must be kept. -/
structure MUXW where
  input0 : RVal := .num 0
  input1 : RVal := .num 0
  sel : Nat := 0
deriving DecidableEq, Repr

def MUXW.write (m : MUXW) (value : RVal) (s : Nat) : MUXW :=
  match s with
  | 1 => { m with input1 := value }
  | _ => { m with input0 := value }

def MUXW.read (m : MUXW) : RVal :=
  match m.sel with
  | 1 => m.input1
  | _ => m.input0

def MUXW.set_select (m : MUXW) (s : Nat) : Except RVError MUXW :=
  if 1 < s then .error .valueError else .ok { m with sel := s }

/-! ## ALU (`rv_units/alu.py`) -/

/-- Python `&` on ints is exact two's-complement bitwise and.  Both ALU
operands always come from `DataRegister` values or generated immediates, so
they lie in `[-2^31, 2^31)`; on that range the operation factors through the
32-bit two's-complement representatives. -/
def pyAnd (a b : Int) : Int :=
  let r := (a % 4294967296).toNat &&& (b % 4294967296).toNat
  if r < 2147483648 then (r : Int) else (r : Int) - 4294967296

/-- Python `|` on ints, under the same operand-range remark as `pyAnd`. -/
def pyOr (a b : Int) : Int :=
  let r := (a % 4294967296).toNat ||| (b % 4294967296).toNat
  if r < 2147483648 then (r : Int) else (r : Int) - 4294967296

/-- ALU state: operands, result, zero flag and the 4-bit internal control. -/
structure ALU where
  a : Int := 0
  b : Int := 0
  result : Int := 0
  zero : Bool := false
  control : Nat := 0
deriving DecidableEq, Repr

def ALU.set_op_a (alu : ALU) (operand : Int) : ALU := { alu with a := operand }

def ALU.set_op_b (alu : ALU) (operand : Int) : ALU := { alu with b := operand }

/-- `ALU.alu_control`: maps `(alu_op, funct3, funct7)` to the internal
operation code; raises `ValueError('Invalid function code')` for an unmapped
`funct3` under the R-type branch.  All non-raising paths end with
`self._zero = False`. -/
def ALU.alu_control (alu : ALU) (control_signal : ControlUnit)
    (funct3 : Nat) (funct7 : Nat) : Except RVError ALU :=
  if control_signal.alu_op.1 then
    .ok { alu with control := 0b0110, zero := false }
  else if control_signal.alu_op.2 then
    if funct7 = 0b0100000 then
      .ok { alu with control := 0b0110, zero := false }
    else
      match funct3 with
      | 0b000 => .ok { alu with control := 0b0010, zero := false }
      | 0b111 => .ok { alu with control := 0b0000, zero := false }
      | 0b110 => .ok { alu with control := 0b0001, zero := false }
      | _ => .error .valueError
  else
    .ok { alu with control := 0b0010, zero := false }

/-- `ALU.do_op`: plain Python int arithmetic — no truncation to 32 bits.
The zero flag is only ever set (`if result == 0`), never cleared here. -/
def ALU.do_op (alu : ALU) : Except RVError ALU :=
  match alu.control with
  | 0b0010 =>
    let r := alu.a + alu.b
    .ok { alu with result := r, zero := if r = 0 then true else alu.zero }
  | 0b0110 =>
    let r := alu.a - alu.b
    .ok { alu with result := r, zero := if r = 0 then true else alu.zero }
  | 0b0000 =>
    let r := pyAnd alu.a alu.b
    .ok { alu with result := r, zero := if r = 0 then true else alu.zero }
  | 0b0001 =>
    let r := pyOr alu.a alu.b
    .ok { alu with result := r, zero := if r = 0 then true else alu.zero }
  | 0b0111 =>
    let r : Int := if alu.a < alu.b then 1 else 0
    .ok { alu with result := r, zero := if r = 0 then true else alu.zero }
  | _ => .error .valueError

/-! ## Pipeline buses (`rv_pipelined.py`, `_init_rv` and the stage returns) -/

structure BusIfId where
  pc : Int
  instruction : List Char
deriving DecidableEq, Repr

structure BusIdEx where
  control : ControlUnit
  pc : Int
  rr_1 : Int
  rr_2 : Int
  imm : Int
  instruction : List Char
  rd : Nat
deriving DecidableEq, Repr

structure BusExMem where
  control : ControlUnit
  offset : Int
  zero : Bool
  alu_result : RVal
  rr_2 : Int
  rd : Nat
  instruction : List Char
deriving DecidableEq, Repr

structure BusMemWb where
  control : ControlUnit
  dmem_read_data : RVal
  alu_result : RVal
  rd : Nat
  instruction : List Char
deriving DecidableEq, Repr

/-- The full simulator state (`RiscV.__init__` plus `_init_rv`). -/
structure RiscV where
  bus_if_id : Option BusIfId
  bus_id_ex : Option BusIdEx
  bus_ex_mem : Option BusExMem
  bus_mem_wb : Option BusMemWb
  pc_src_mux : MUX1
  pc : Int
  imem : Int → Option (List Char)
  registers : RegisterFile
  ex_mux : MUX1
  alu : ALU
  pc_src : Bool
  wb_mux : MUXW
  wb_rd : Int
  data_mem : Nat → Nat

def zeros32 : List Char := "00000000000000000000000000000000".toList

/-- `_init_rv`: the initial bus contents and multiplexer loads; `imem`,
`data_mem` and the register contents are parameters (the register file
starts all zero, preset registers model values written before the run). -/
def RiscV.init (imem : Int → Option (List Char)) (regs : Nat → Int)
    (dm : Nat → Nat) : RiscV where
  bus_if_id := some { pc := 0, instruction := zeros32 }
  bus_id_ex := some
    { control := {}, pc := 0, rr_1 := 0, rr_2 := 0, imm := 0,
      instruction := zeros32, rd := 0 }
  bus_ex_mem := some
    { control := {}, offset := 0, zero := false, alu_result := .reg 0,
      rr_2 := 0, rd := 0, instruction := zeros32 }
  bus_mem_wb := some
    { control := {}, dmem_read_data := .reg 0, alu_result := .reg 0,
      rd := 0, instruction := zeros32 }
  pc_src_mux := { input0 := 0, input1 := 0, sel := 0 }
  pc := 0
  imem := imem
  registers := { regs := regs }
  ex_mux := { input0 := 0, input1 := 0, sel := 0 }
  alu := {}
  pc_src := false
  wb_mux := { input0 := .reg 0, input1 := .reg 0, sel := 0 }
  wb_rd := 0
  data_mem := dm

/-! ## The five pipeline stages (`rv_pipelined.py`) -/

/-- `_instruction_fetch`: read the PC from the PC-source multiplexer, preload
`pc+4` into its input 0, look the instruction up in instruction memory; a
miss (`KeyError`, caught) yields the empty sentinel bus. -/
def instruction_fetch (s : RiscV) : Option BusIfId × RiscV :=
  let pc := s.pc_src_mux.read
  let mux := s.pc_src_mux.write (pc + 4) 0
  let s := { s with pc := pc, pc_src_mux := mux }
  match s.imem pc with
  | none => (none, s)
  | some instr => (some { pc := pc, instruction := instr }, s)

/-- The immediate-selection chain of `_instruction_decode`: pick the
immediate bit-field by instruction-format class (the opcode string) and run
it through `imm_gen`. -/
def imm_select (instruction : List Char) : Except RVError Int :=
  if strSlice instruction 25 32 = "0000011".toList ∨
      strSlice instruction 25 32 = "0010011".toList then -- I-type
    imm_gen (strSlice instruction 0 12)
  else if strSlice instruction 25 32 = "0100011".toList then -- S-type
    imm_gen (strSlice instruction 0 7 ++ strSlice instruction 20 25)
  else if strSlice instruction 25 32 = "1100011".toList then -- B-type
    imm_gen (strSlice instruction 0 1 ++ strSlice instruction 24 25 ++
      strSlice instruction 1 7 ++ strSlice instruction 20 24 ++ ['0'])
  else
    imm_gen (strSlice instruction 0 8)

/-- `_instruction_decode`: early-returns the sentinel when the IF/ID bus is
empty (note: *before* the write-before-read register write); otherwise
decodes opcode/immediate/register fields, applies the MEM/WB write-back if
`reg_write` is set (reading the value from the write-back multiplexer as
loaded by the *previous* cycle's write-back stage), then sets the two read
ports and builds the ID/EX bus.  Accessing `bus_mem_wb['control']` on the
empty dict would raise `KeyError`. -/
def instruction_decode (s : RiscV) (bus_if_id : Option BusIfId)
    (bus_mem_wb : Option BusMemWb) :
    Except RVError (Option BusIdEx × RiscV) :=
  match bus_if_id with
  | none => .ok (none, s)
  | some b =>
    let instruction := b.instruction
    let opcode := binToNat (strSlice instruction 25 32)
    let control_unit := ControlUnit.set_opcode {} opcode
    match imm_select instruction with
    | .error e => .error e
    | .ok imm =>
      let rr_1 := binToNat (strSlice instruction 12 17)
      let rr_2 := binToNat (strSlice instruction 7 12)
      let rd := binToNat (strSlice instruction 20 25)
      let wbRes : Except RVError RiscV :=
        match bus_mem_wb with
        | none => .error RVError.keyError
        | some mwb =>
          if mwb.control.reg_write then
            match s.registers.write_data mwb.rd s.wb_mux.read with
            | .error e => .error e
            | .ok rf => .ok { s with registers := rf }
          else .ok s
      match wbRes with
      | .error e => .error e
      | .ok s =>
        match s.registers.select_register rr_1 1 with
        | .error e => .error e
        | .ok rf =>
          match rf.select_register rr_2 2 with
          | .error e => .error e
          | .ok rf =>
            match rf.read_data 1 with
            | .error e => .error e
            | .ok v1 =>
              match rf.read_data 2 with
              | .error e => .error e
              | .ok v2 =>
                .ok (some
                  { control := control_unit, pc := b.pc, rr_1 := v1,
                    rr_2 := v2, imm := imm, instruction := instruction,
                    rd := rd },
                  { s with registers := rf })

/-- `_execute`: sentinel propagation, ALU control from
`(alu_op, funct3, funct7)`, operand A from `rr_1`, operand B through the EX
multiplexer selected by `alu_src`, then `do_op`; `branch_target = pc + imm`.
The EX/MEM bus carries the plain-int ALU result. -/
def execute (s : RiscV) (bus_id_ex : Option BusIdEx) :
    Except RVError (Option BusExMem × RiscV) :=
  match bus_id_ex with
  | none => .ok (none, s)
  | some b =>
    match s.alu.alu_control b.control
      (binToNat (strSlice b.instruction 17 20))
      (binToNat (strSlice b.instruction 0 7)) with
    | .error e => .error e
    | .ok alu =>
      let alu := alu.set_op_a b.rr_1
      let ex_mux := (s.ex_mux.write b.rr_2 0).write b.imm 1
      match ex_mux.set_select (if b.control.alu_src then 1 else 0) with
      | .error e => .error e
      | .ok ex_mux =>
        let alu := alu.set_op_b ex_mux.read
        match alu.do_op with
        | .error e => .error e
        | .ok alu =>
          let pc_offset := b.pc + b.imm
          .ok (some
            { control := b.control, offset := pc_offset, zero := alu.zero,
              alu_result := .num alu.result, rr_2 := b.rr_2, rd := b.rd,
              instruction := b.instruction },
            { s with alu := alu, ex_mux := ex_mux })

/-- `_memory_access`: sentinel propagation; loads the branch target into the
PC-source multiplexer and sets its select from `zero AND branch`; on
`mem_write` stores `rr_2` at the address `self._alu.result()` — the *live*
ALU state already overwritten by this same cycle's execute stage, not the
latched `alu_result` of the EX/MEM bus (which is what the read path and the
debug log use). -/
def memory_access (s : RiscV) (bus_ex_mem : Option BusExMem) :
    Except RVError (Option BusMemWb × RiscV) :=
  match bus_ex_mem with
  | none => .ok (none, s)
  | some b =>
    let mux := s.pc_src_mux.write b.offset 1
    let pc_src := b.zero && b.control.branch
    match mux.set_select (if pc_src then 1 else 0) with
    | .error e => .error e
    | .ok mux =>
      let s := { s with pc_src_mux := mux, pc_src := pc_src }
      let writeRes : Except RVError (Nat → Nat) :=
        if b.control.mem_write then
          DataMemory.write s.data_mem s.alu.result b.rr_2
        else .ok s.data_mem
      match writeRes with
      | .error e => .error e
      | .ok dm =>
        let s := { s with data_mem := dm }
        let readRes : Except RVError RVal :=
          if b.control.mem_read then
            match DataMemory.read s.data_mem b.alu_result.toInt with
            | .error e => .error e
            | .ok v => .ok (.reg v)
          else .ok (.reg 0)
        match readRes with
        | .error e => .error e
        | .ok dmem_read_data =>
          .ok (some
            { control := b.control, dmem_read_data := dmem_read_data,
              alu_result := b.alu_result, rd := b.rd,
              instruction := b.instruction },
            s)

/-- `_write_back`: raises `ValueError('Instruction not found')` on the
sentinel (the simulator's terminal condition); otherwise loads the
write-back multiplexer (slot 1 with `dmem_read_data`, slot 0 with
`alu_result`), selects by `mem_to_reg`, and stages `DataRegister(rd)`. -/
def write_back (s : RiscV) (bus_mem_wb : Option BusMemWb) :
    Except RVError RiscV :=
  match bus_mem_wb with
  | none => .error RVError.valueError
  | some b =>
    let mux := (s.wb_mux.write b.dmem_read_data 1).write b.alu_result 0
    match mux.set_select (if b.control.mem_to_reg then 1 else 0) with
    | .error e => .error e
    | .ok mux =>
      match dataRegisterOfInt (b.rd : Int) with
      | .error e => .error e
      | .ok wb_rd => .ok { s with wb_mux := mux, wb_rd := wb_rd }

/-- `RiscV.cycle`: captures the four latched buses, runs the five stages in
order (each mutating the shared state), catches `ValueError` from the
write-back stage only (returning `False`, the halt indication, without
latching the new buses), and otherwise commits the four new buses and
returns `True`. -/
def cycle (s0 : RiscV) : Except RVError (Bool × RiscV) :=
  let bus_if_id := s0.bus_if_id
  let bus_id_ex := s0.bus_id_ex
  let bus_ex_mem := s0.bus_ex_mem
  let bus_mem_wb := s0.bus_mem_wb
  let fetched := instruction_fetch s0
  let new_bus_if_id := fetched.1
  let sA := fetched.2
  match instruction_decode sA bus_if_id bus_mem_wb with
  | .error e => .error e
  | .ok (new_bus_id_ex, sB) =>
    match execute sB bus_id_ex with
    | .error e => .error e
    | .ok (new_bus_ex_mem, sC) =>
      match memory_access sC bus_ex_mem with
      | .error e => .error e
      | .ok (new_bus_mem_wb, sD) =>
        match write_back sD bus_mem_wb with
        | .error .valueError => .ok (false, sD)
        | .error e => .error e
        | .ok sE => .ok (true,
            { sE with bus_if_id := new_bus_if_id, bus_id_ex := new_bus_id_ex,
                      bus_ex_mem := new_bus_ex_mem,
                      bus_mem_wb := new_bus_mem_wb })

/-- The driver loop (`main.py`): keep calling `cycle` while it returns
`True`; `runRV n` performs at most `n` calls and stops early at the first
`False` (or uncaught exception). -/
def runRV : Nat → RiscV → Except RVError (Bool × RiscV)
  | 0, s => .ok (true, s)
  | n + 1, s =>
    match cycle s with
    | .ok (true, s') => runRV n s'
    | r => r

/-- Whether a cycle call returned normally (no uncaught Python exception). -/
def isOkE (e : Except RVError (Bool × RiscV)) : Bool :=
  match e with
  | .ok _ => true
  | .error _ => false

/-- Whether a result is specifically an uncaught `ValueError`. -/
def isValueError {a : Type} (x : Except RVError a) : Bool :=
  match x with
  | .error .valueError => true
  | _ => false

/-- Whether a stage result is a successful return of the sentinel bus. -/
def okNone {e a b : Type} (x : Except e (Option a × b)) : Bool :=
  match x with
  | .ok (none, _) => true
  | _ => false

/-! ## Concrete programs and observation helpers -/

/-- `ADD x3, x1, x2`: funct7 `0000000`, rs2 `00010`, rs1 `00001`, funct3
`000`, rd `00011`, opcode `0110011`. -/
def addInstr : List Char := "00000000001000001000000110110011".toList

/-- `SUB x3, x1, x2`: as `addInstr` with funct7 `0100000`. -/
def subInstr : List Char := "01000000001000001000000110110011".toList

/-- `AND x3, x1, x2`: as `addInstr` with funct3 `111`. -/
def andInstr : List Char := "00000000001000001111000110110011".toList

/-- `OR x3, x1, x2`: as `addInstr` with funct3 `110`. -/
def orInstr : List Char := "00000000001000001110000110110011".toList

/-- `SW x1, 8(x0)`: imm[11:5] `0000000`, rs2 `00001`, rs1 `00000`, funct3
`010`, imm[4:0] `01000`, opcode `0100011`. -/
def swInstr8 : List Char := "00000000000100000010010000100011".toList

/-- `SW x1, 12(x0)`: as `swInstr8` with imm[4:0] `01100`. -/
def swInstr12 : List Char := "00000000000100000010011000100011".toList

/-- Program of claim C1: a single ADD at address 0, registers x1 = 10 and
x2 = 5 preset, fresh (all-zero) data memory. -/
def c1Init : RiscV :=
  RiscV.init (fun a => if a = 0 then some addInstr else none)
    (fun i => if i = 1 then 10 else if i = 2 then 5 else 0)
    (fun _ => 0)

/-- Program of claim C4: `SW x1, 8(x0)` at address 0 and `SW x1, 12(x0)` at
address 4, register x1 = 7 preset, fresh data memory. -/
def c4Init : RiscV :=
  RiscV.init
    (fun a => if a = 0 then some swInstr8 else
      if a = 4 then some swInstr12 else none)
    (fun i => if i = 1 then 7 else 0)
    (fun _ => 0)

/-- The halt flag after (at most) `n` cycles; `none` on an uncaught
exception. -/
def haltedAfter (n : Nat) (s : RiscV) : Option Bool :=
  match runRV n s with
  | .ok (b, _) => some b
  | .error _ => none

/-- Register `i`'s value after (at most) `n` cycles. -/
def regAfter (n : Nat) (s : RiscV) (i : Nat) : Option Int :=
  match runRV n s with
  | .ok (_, s') => some (s'.registers.regs i)
  | .error _ => none

/-- Data-memory byte at offset `i` after (at most) `n` cycles. -/
def memByteAfter (n : Nat) (s : RiscV) (i : Nat) : Option Nat :=
  match runRV n s with
  | .ok (_, s') => some (s'.data_mem i)
  | .error _ => none

/-- The latched EX/MEM bus after (at most) `n` cycles. -/
def busExMemAfter (n : Nat) (s : RiscV) : Option BusExMem :=
  match runRV n s with
  | .ok (_, s') => s'.bus_ex_mem
  | .error _ => none

/-- The EX-stage ALU result (as carried on the produced EX/MEM bus) when the
execute stage runs on the given ID/EX bus. -/
def exAluResult (s : RiscV) (b : BusIdEx) : Option Int :=
  match execute s (some b) with
  | .ok (some eb, _) => some eb.alu_result.toInt
  | _ => none

/-- An R-type ID/EX bus with given instruction and register operands (as the
decode stage would produce for `instruction` when the register reads give
`a` and `b`). -/
def rBus (instruction : List Char) (a b : Int) : BusIdEx :=
  { control := ControlUnit.set_opcode {} 0b0110011, pc := 0, rr_1 := a,
    rr_2 := b, imm := 0, instruction := instruction, rd := 3 }

deriving instance DecidableEq for Except

/-- An ALU loaded with operands `a`, `b` and internal control `0b0111`
(SLT), as `do_op` would see it. -/
def sltALU (a b : Int) : ALU :=
  { a := a, b := b, result := 0, zero := false, control := 0b0111 }

/-- A fresh register file: every register zero (the constructor builds 32
zeroed `DataRegister`s). -/
def rf0 : RegisterFile := { regs := fun _ => 0 }

/-- The machine state after the first cycle of the single-ADD program:
the state in which instruction fetch first misses (PC = 4). -/
def c8s : RiscV :=
  match cycle c1Init with
  | .ok (_, s) => s
  | .error _ => c1Init

def c8r1 : Bool × RiscV :=
  match cycle c8s with
  | .ok r => r
  | .error _ => (true, c1Init)

def c8r2 : Bool × RiscV :=
  match cycle c8r1.2 with
  | .ok r => r
  | .error _ => (true, c1Init)

def c8r3 : Bool × RiscV :=
  match cycle c8r2.2 with
  | .ok r => r
  | .error _ => (true, c1Init)

def c8r4 : Bool × RiscV :=
  match cycle c8r3.2 with
  | .ok r => r
  | .error _ => (true, c1Init)

/-- A MEM/WB bus whose control came from an unrecognized instruction:
all signals at their constructor defaults. -/
def c10mwb : BusMemWb :=
  { control := {}, dmem_read_data := .reg 0, alu_result := .reg 0,
    rd := 0, instruction := zeros32 }

def c10bI : BusIfId := { pc := 0, instruction := zeros32 }

def c10dec : Option BusIdEx × RiscV :=
  match instruction_decode c1Init (some c10bI) (some c10mwb) with
  | .ok r => r
  | .error _ => (none, c1Init)

/-! ## Theorems -/

/-- C2 (code bug): `imm_gen` performs no sign extension.  On the 12-bit
input `111111111011` it returns 4091 (the unsigned value of the bit string),
not the two's-complement value −5 that its own docstring ("sign extends it
to 32 bits") and the spec promise; the non-negative case `000000000101 ↦ 5`
does hold. -/
theorem c2_imm_gen_no_sign_extension :
    imm_gen ("111111111011".toList) = .ok 4091 ∧
    imm_gen ("111111111011".toList) ≠ .ok (-5) ∧
    imm_gen ("000000000101".toList) = .ok 5 := by
  decide

/-- C3 (code bug): the `DataMemory` imported by the pipeline
(`rv_units/data_memory.py`) seeks to byte offset `address`, with no word
index → byte offset conversion: writing word 1 at address 1 places its
little-endian bytes at offsets 1..4, leaving offset 4 in particular holding
a carry byte of 0 rather than the serialized word at `1*4`.  The sibling
module `rv_units/data_memmory.py` — whose docstring names the pipelined
emulator — performs exactly the claimed `address*4` conversion. -/
theorem c3_write_seeks_raw_address :
    (∃ m, DataMemory.write (fun _ => 0) 1 1 = .ok m ∧
      m 1 = 1 ∧ m 4 = 0 ∧ m 0 = 0) ∧
    (∃ m, DataMemmory.write (fun _ => 0) 1 1 = .ok m ∧
      m 4 = 1 ∧ m 1 = 0) := by
  exact ⟨⟨_, rfl, rfl, rfl, rfl⟩, ⟨_, rfl, rfl, rfl⟩⟩

/-- C5: writing register x0 raises `ValueError` (surfaced, not silently
dropped), the register file is untouched so x0 still reads 0, and a write to
any index 1..31 succeeds, stores the value, and leaves x0 at 0. -/
theorem c5_x0_protected (rf : RegisterFile) (w : Int) (i : Nat)
    (h0 : rf.regs 0 = 0) (hi1 : 1 ≤ i) (hi2 : i ≤ 31) :
    RegisterFile.write_data rf 0 (.reg w) = .error RVError.valueError ∧
    rf.regs 0 = 0 ∧
    ∃ rf', RegisterFile.write_data rf i (.reg w) = .ok rf' ∧
      rf'.regs i = w ∧ rf'.regs 0 = 0 := by
  refine ⟨rfl, h0, ?_⟩
  have hne : ¬ (i = 0) := by omega
  simp only [RegisterFile.write_data, if_neg hne, if_pos hi2]
  refine ⟨_, rfl, ?_, ?_⟩
  · simp
  · have h0i : ¬ ((0 : Nat) = i) := by omega
    simp only [if_neg h0i]
    exact h0

theorem c5_x0_protected_witness :
    (rf0.regs 0 = 0 ∧ 1 ≤ 5 ∧ 5 ≤ 31) ∧
    (RegisterFile.write_data rf0 0 (.reg 7) = .error RVError.valueError ∧
     rf0.regs 0 = 0 ∧
     ∃ rf', RegisterFile.write_data rf0 5 (.reg 7) = .ok rf' ∧
       rf'.regs 5 = 7 ∧ rf'.regs 0 = 0) :=
  ⟨⟨rfl, by decide, by decide⟩,
   c5_x0_protected rf0 7 5 rfl (by decide) (by decide)⟩

/-- C6: `ControlUnit.set_opcode` realizes the decode table of spec §4.6 for
the five recognized opcodes, don't-care cells (mem_to_reg for SW and for
BEQ/BNE) excluded — they keep whatever value the incoming record carries. -/
theorem c6_decode_table (c : ControlUnit) :
    ControlUnit.set_opcode c 0b0110011 =
      { alu_src := false, mem_to_reg := false, reg_write := true,
        mem_read := false, mem_write := false, branch := false,
        alu_op := (false, true) } ∧
    ControlUnit.set_opcode c 0b0000011 =
      { alu_src := true, mem_to_reg := true, reg_write := true,
        mem_read := true, mem_write := false, branch := false,
        alu_op := (false, false) } ∧
    ((ControlUnit.set_opcode c 0b0100011).alu_src = true ∧
     (ControlUnit.set_opcode c 0b0100011).reg_write = false ∧
     (ControlUnit.set_opcode c 0b0100011).mem_read = false ∧
     (ControlUnit.set_opcode c 0b0100011).mem_write = true ∧
     (ControlUnit.set_opcode c 0b0100011).branch = false ∧
     (ControlUnit.set_opcode c 0b0100011).alu_op = (false, false)) ∧
    ((ControlUnit.set_opcode c 0b1100011).alu_src = false ∧
     (ControlUnit.set_opcode c 0b1100011).reg_write = false ∧
     (ControlUnit.set_opcode c 0b1100011).mem_read = false ∧
     (ControlUnit.set_opcode c 0b1100011).mem_write = false ∧
     (ControlUnit.set_opcode c 0b1100011).branch = true ∧
     (ControlUnit.set_opcode c 0b1100011).alu_op = (true, false)) ∧
    ControlUnit.set_opcode c 0b0010011 =
      { alu_src := true, mem_to_reg := false, reg_write := true,
        mem_read := false, mem_write := false, branch := false,
        alu_op := (false, false) } := by
  exact ⟨rfl, rfl, ⟨rfl, rfl, rfl, rfl, rfl, rfl⟩,
    ⟨rfl, rfl, rfl, rfl, rfl, rfl⟩, rfl⟩

/-- C7 counterexample: the ALU does *not* wrap to 32 bits.  For the
representable operands 2147483647 and 1, the R-type ADD result carried on
the EX/MEM bus is 2147483648 — not the claimed value
(2147483647 + 1) mod 2^32 reinterpreted as signed, which is −2147483648. -/
theorem c7_no_wraparound_counterexample :
    exAluResult c1Init (rBus addInstr 2147483647 1) = some 2147483648 ∧
    exAluResult c1Init (rBus addInstr 2147483647 1) ≠
      some (-2147483648) := by
  decide

/-- C7 (amended): ALU arithmetic is exact, unbounded Python int arithmetic:
for 32-bit-representable operands the EX/MEM bus carries the untruncated
mathematical result (ADD, SUB, AND, OR; SLT — unreachable through
`alu_control` — likewise at the `do_op` level), and no operand pair raises
an overflow error. -/
theorem c7_alu_exact_arithmetic (a b : Int)
    (ha1 : -2147483648 ≤ a) (ha2 : a ≤ 2147483647)
    (hb1 : -2147483648 ≤ b) (hb2 : b ≤ 2147483647) :
    exAluResult c1Init (rBus addInstr a b) = some (a + b) ∧
    exAluResult c1Init (rBus subInstr a b) = some (a - b) ∧
    exAluResult c1Init (rBus andInstr a b) = some (pyAnd a b) ∧
    exAluResult c1Init (rBus orInstr a b) = some (pyOr a b) ∧
    ((sltALU a b).do_op).map (fun u => u.result) =
      .ok (if a < b then (1 : Int) else 0) := by
  exact ⟨rfl, rfl, rfl, rfl, rfl⟩

theorem c7_alu_exact_arithmetic_witness :
    ((-2147483648 ≤ (2147483647 : Int)) ∧ ((2147483647 : Int) ≤ 2147483647) ∧
     (-2147483648 ≤ (1 : Int)) ∧ ((1 : Int) ≤ 2147483647)) ∧
    (exAluResult c1Init (rBus addInstr 2147483647 1) =
        some (2147483647 + 1) ∧
     exAluResult c1Init (rBus subInstr 2147483647 1) =
        some (2147483647 - 1) ∧
     exAluResult c1Init (rBus andInstr 2147483647 1) =
        some (pyAnd 2147483647 1) ∧
     exAluResult c1Init (rBus orInstr 2147483647 1) =
        some (pyOr 2147483647 1) ∧
     ((sltALU 2147483647 1).do_op).map (fun u => u.result) =
      .ok (if (2147483647 : Int) < 1 then (1 : Int) else 0)) :=
  ⟨by decide,
   c7_alu_exact_arithmetic 2147483647 1 (by decide) (by decide)
     (by decide) (by decide)⟩

/-- C1 (code bug): with the single ADD instruction (x1 = 10, x2 = 5,
rd = 3) in an otherwise empty pipeline, the simulator runs 5 successful
cycles, reports halt on cycle 6 — and register x3 still holds 0, not 15:
once fetch misses, the decode stage early-returns on the empty IF/ID bus
*before* applying the staged MEM/WB write-back, so the ADD's register write
is never performed. -/
theorem c1_add_writeback_lost :
    haltedAfter 5 c1Init = some true ∧
    haltedAfter 6 c1Init = some false ∧
    regAfter 6 c1Init 3 = some 0 ∧
    regAfter 6 c1Init 3 ≠ some 15 := by
  decide

/-- C4 (code bug): in the two-store program (`SW x1, 8(x0)` then
`SW x1, 12(x0)`, x1 = 7), the EX/MEM bus entering cycle 4 carries the first
store with latched `alu_result` 8 and `mem_write` set — yet after cycle 4
the value 7 sits at data-memory offset 12 (the ALU result the *same*
cycle's execute stage just computed for the second store) and offset 8 is
untouched: the memory stage addresses the store through the live
`self._alu.result()`, not the latched bus value. -/
theorem c4_store_address_not_latched :
    (busExMemAfter 3 c4Init).map
      (fun b => (b.control.mem_write, b.alu_result)) =
      some (true, .num 8) ∧
    memByteAfter 4 c4Init 12 = some 7 ∧
    memByteAfter 4 c4Init 13 = some 0 ∧
    memByteAfter 4 c4Init 8 = some 0 ∧
    memByteAfter 4 c4Init 9 = some 0 := by
  decide

/-- C9: data-memory round trip — reading the address just written returns
the written word, for every starting store, address and representable
word. -/
theorem c9_data_memory_round_trip (m : Nat → Nat) (a w : Int)
    (ha : 0 ≤ a) (hw1 : -2147483648 ≤ w) (hw2 : w ≤ 2147483647) :
    (DataMemory.write m a w).bind (fun m2 => DataMemory.read m2 a) =
      .ok w := by
  have hw : DataMemory.write m a w = .ok (fun i =>
      if i = a.toNat then (w % 4294967296).toNat % 256
      else if i = a.toNat + 1 then (w % 4294967296).toNat / 256 % 256
      else if i = a.toNat + 2 then (w % 4294967296).toNat / 65536 % 256
      else if i = a.toNat + 3 then (w % 4294967296).toNat / 16777216 % 256
      else m i) := by
    unfold DataMemory.write
    rw [if_pos ha]
  rw [hw]
  simp only [Except.bind]
  unfold DataMemory.read
  rw [if_pos ha]
  simp only []
  split_ifs <;> first
    | (congr 1; omega)
    | omega

theorem c9_data_memory_round_trip_witness :
    ((0 : Int) ≤ 3 ∧ -2147483648 ≤ (42 : Int) ∧ (42 : Int) ≤ 2147483647) ∧
    (DataMemory.write (fun _ => 0) 3 42).bind
      (fun m2 => DataMemory.read m2 3) = .ok 42 :=
  ⟨by decide,
   c9_data_memory_round_trip (fun _ => 0) 3 42 (by decide) (by decide)
     (by decide)⟩

/-! ### Sentinel propagation and the halt property (C8) -/

theorem instruction_decode_none (s : RiscV) (mwb : Option BusMemWb) :
    instruction_decode s none mwb = .ok (none, s) := rfl

theorem execute_none (s : RiscV) : execute s none = .ok (none, s) := rfl

theorem memory_access_none (s : RiscV) :
    memory_access s none = .ok (none, s) := rfl

theorem write_back_none (s : RiscV) :
    write_back s none = .error RVError.valueError := rfl

/-- `set_select` on a 0/1 select never raises: the select is in range. -/
theorem muxw_set_select_bit_ne_error (m : MUXW) (c : Prop) [inst : Decidable c]
    (e : RVError) :
    MUXW.set_select m (if c then 1 else 0) ≠ .error e := by
  by_cases hc : c
  · rw [if_pos hc]
    intro h
    exact Except.noConfusion h
  · rw [if_neg hc]
    intro h
    exact Except.noConfusion h

/-- `DataRegister(v)` can only fail with `OverflowError`. -/
theorem dataRegisterOfInt_err (v : Int) (e : RVError)
    (h : dataRegisterOfInt v = .error e) : e = RVError.overflowError := by
  unfold dataRegisterOfInt at h
  split at h
  · exact Except.noConfusion h
  · injection h with h1
    exact h1.symm

/-- The write-back stage on a non-sentinel bus never produces an uncaught
`ValueError`: its only failure mode is the `OverflowError` of
`DataRegister(rd)`. -/
theorem write_back_isVE (s : RiscV) (b : BusMemWb) :
    isValueError (write_back s (some b)) = false := by
  simp only [write_back]
  cases hsel : MUXW.set_select
      ((s.wb_mux.write b.dmem_read_data 1).write b.alu_result 0)
      (if b.control.mem_to_reg then 1 else 0) with
  | error e => exact absurd hsel (muxw_set_select_bit_ne_error _ _ e)
  | ok mux =>
    cases hd : dataRegisterOfInt (b.rd : Int) with
    | error e2 =>
      rw [dataRegisterOfInt_err _ _ hd]
      rfl
    | ok w => rfl

theorem write_back_some_not_valueError (s : RiscV) (b : BusMemWb) :
    write_back s (some b) ≠ .error RVError.valueError := by
  intro h
  have hv := write_back_isVE s b
  rw [h] at hv
  exact Bool.noConfusion hv


theorem instruction_decode_okNone (s : RiscV) (b : BusIfId)
    (mwb : Option BusMemWb) :
    okNone (instruction_decode s (some b) mwb) = false := by
  simp only [instruction_decode]
  repeat' split
  all_goals rfl

theorem instruction_decode_some_some (s s' : RiscV) (b : BusIfId)
    (mwb : Option BusMemWb) (nb : Option BusIdEx)
    (h : instruction_decode s (some b) mwb = .ok (nb, s')) :
    ∃ x, nb = some x := by
  have hv := instruction_decode_okNone s b mwb
  rw [h] at hv
  cases nb with
  | none => exact Bool.noConfusion hv
  | some x => exact ⟨x, rfl⟩

theorem execute_okNone (s : RiscV) (b : BusIdEx) :
    okNone (execute s (some b)) = false := by
  simp only [execute]
  repeat' split
  all_goals rfl

theorem execute_some_some (s s' : RiscV) (b : BusIdEx)
    (nb : Option BusExMem) (h : execute s (some b) = .ok (nb, s')) :
    ∃ x, nb = some x := by
  have hv := execute_okNone s b
  rw [h] at hv
  cases nb with
  | none => exact Bool.noConfusion hv
  | some x => exact ⟨x, rfl⟩

theorem memory_access_okNone (s : RiscV) (b : BusExMem) :
    okNone (memory_access s (some b)) = false := by
  simp only [memory_access]
  repeat' split
  all_goals rfl

theorem memory_access_some_some (s s' : RiscV) (b : BusExMem)
    (nb : Option BusMemWb) (h : memory_access s (some b) = .ok (nb, s')) :
    ∃ x, nb = some x := by
  have hv := memory_access_okNone s b
  rw [h] at hv
  cases nb with
  | none => exact Bool.noConfusion hv
  | some x => exact ⟨x, rfl⟩

theorem cycle_err_decode (s : RiscV) (e : RVError)
    (hdec : instruction_decode (instruction_fetch s).2 s.bus_if_id
      s.bus_mem_wb = .error e) :
    cycle s = .error e := by
  simp only [cycle, hdec]

theorem cycle_err_execute (s sB : RiscV) (e : RVError) (nId : Option BusIdEx)
    (hdec : instruction_decode (instruction_fetch s).2 s.bus_if_id
      s.bus_mem_wb = .ok (nId, sB))
    (hexec : execute sB s.bus_id_ex = .error e) :
    cycle s = .error e := by
  simp only [cycle, hdec, hexec]

theorem cycle_err_memory (s sB sC : RiscV) (e : RVError)
    (nId : Option BusIdEx) (nEx : Option BusExMem)
    (hdec : instruction_decode (instruction_fetch s).2 s.bus_if_id
      s.bus_mem_wb = .ok (nId, sB))
    (hexec : execute sB s.bus_id_ex = .ok (nEx, sC))
    (hmem : memory_access sC s.bus_ex_mem = .error e) :
    cycle s = .error e := by
  simp only [cycle, hdec, hexec, hmem]

theorem cycle_err_wb (s sB sC sD : RiscV) (e : RVError)
    (nId : Option BusIdEx) (nEx : Option BusExMem) (nMem : Option BusMemWb)
    (hdec : instruction_decode (instruction_fetch s).2 s.bus_if_id
      s.bus_mem_wb = .ok (nId, sB))
    (hexec : execute sB s.bus_id_ex = .ok (nEx, sC))
    (hmem : memory_access sC s.bus_ex_mem = .ok (nMem, sD))
    (hwb : write_back sD s.bus_mem_wb = .error e)
    (hne : e ≠ RVError.valueError) :
    cycle s = .error e := by
  simp only [cycle, hdec, hexec, hmem, hwb]

theorem cycle_halt_eq (s sB sC sD : RiscV)
    (nId : Option BusIdEx) (nEx : Option BusExMem) (nMem : Option BusMemWb)
    (hdec : instruction_decode (instruction_fetch s).2 s.bus_if_id
      s.bus_mem_wb = .ok (nId, sB))
    (hexec : execute sB s.bus_id_ex = .ok (nEx, sC))
    (hmem : memory_access sC s.bus_ex_mem = .ok (nMem, sD))
    (hwb : write_back sD s.bus_mem_wb = .error RVError.valueError) :
    cycle s = .ok (false, sD) := by
  simp only [cycle, hdec, hexec, hmem, hwb]

theorem cycle_latch_eq (s sB sC sD sE : RiscV)
    (nId : Option BusIdEx) (nEx : Option BusExMem) (nMem : Option BusMemWb)
    (hdec : instruction_decode (instruction_fetch s).2 s.bus_if_id
      s.bus_mem_wb = .ok (nId, sB))
    (hexec : execute sB s.bus_id_ex = .ok (nEx, sC))
    (hmem : memory_access sC s.bus_ex_mem = .ok (nMem, sD))
    (hwb : write_back sD s.bus_mem_wb = .ok sE) :
    cycle s = .ok (true,
      { sE with bus_if_id := (instruction_fetch s).1, bus_id_ex := nId,
                bus_ex_mem := nEx, bus_mem_wb := nMem }) := by
  simp only [cycle, hdec, hexec, hmem, hwb]

theorem cycle_step_true (s : RiscV) (bM : BusMemWb) (r : Bool × RiscV)
    (hWb : s.bus_mem_wb = some bM) (h : cycle s = .ok r) :
    ∃ nId nEx nMem sB sC sD,
      instruction_decode (instruction_fetch s).2 s.bus_if_id s.bus_mem_wb =
        .ok (nId, sB) ∧
      execute sB s.bus_id_ex = .ok (nEx, sC) ∧
      memory_access sC s.bus_ex_mem = .ok (nMem, sD) ∧
      r.1 = true ∧
      r.2.bus_if_id = (instruction_fetch s).1 ∧
      r.2.bus_id_ex = nId ∧ r.2.bus_ex_mem = nEx ∧
      r.2.bus_mem_wb = nMem := by
  cases hdec : instruction_decode (instruction_fetch s).2 s.bus_if_id
      s.bus_mem_wb with
  | error e =>
    rw [cycle_err_decode s e hdec] at h
    exact Except.noConfusion h
  | ok p =>
    obtain ⟨nId, sB⟩ := p
    cases hexec : execute sB s.bus_id_ex with
    | error e =>
      rw [cycle_err_execute s sB e nId hdec hexec] at h
      exact Except.noConfusion h
    | ok q =>
      obtain ⟨nEx, sC⟩ := q
      cases hmem : memory_access sC s.bus_ex_mem with
      | error e =>
        rw [cycle_err_memory s sB sC e nId nEx hdec hexec hmem] at h
        exact Except.noConfusion h
      | ok u =>
        obtain ⟨nMem, sD⟩ := u
        cases hwb : write_back sD s.bus_mem_wb with
        | error e =>
          cases e with
          | valueError =>
            rw [hWb] at hwb
            exact absurd hwb (write_back_some_not_valueError sD bM)
          | attributeError =>
            rw [cycle_err_wb s sB sC sD _ nId nEx nMem hdec hexec hmem hwb
              (fun hh => RVError.noConfusion hh)] at h
            exact Except.noConfusion h
          | keyError =>
            rw [cycle_err_wb s sB sC sD _ nId nEx nMem hdec hexec hmem hwb
              (fun hh => RVError.noConfusion hh)] at h
            exact Except.noConfusion h
          | overflowError =>
            rw [cycle_err_wb s sB sC sD _ nId nEx nMem hdec hexec hmem hwb
              (fun hh => RVError.noConfusion hh)] at h
            exact Except.noConfusion h
        | ok sE =>
          rw [cycle_latch_eq s sB sC sD sE nId nEx nMem hdec hexec hmem hwb]
            at h
          injection h with h1
          subst h1
          exact ⟨nId, nEx, nMem, sB, sC, sD, by first | exact hdec | rfl,
            hexec, hmem, rfl, rfl, rfl, rfl, rfl⟩

theorem cycle_step_halt (s : RiscV) (hWb : s.bus_mem_wb = none)
    (hok : isOkE (cycle s) = true) :
    ∃ s', cycle s = .ok (false, s') := by
  cases hdec : instruction_decode (instruction_fetch s).2 s.bus_if_id
      s.bus_mem_wb with
  | error e =>
    rw [cycle_err_decode s e hdec] at hok
    exact Bool.noConfusion hok
  | ok p =>
    obtain ⟨nId, sB⟩ := p
    cases hexec : execute sB s.bus_id_ex with
    | error e =>
      rw [cycle_err_execute s sB e nId hdec hexec] at hok
      exact Bool.noConfusion hok
    | ok q =>
      obtain ⟨nEx, sC⟩ := q
      cases hmem : memory_access sC s.bus_ex_mem with
      | error e =>
        rw [cycle_err_memory s sB sC e nId nEx hdec hexec hmem] at hok
        exact Bool.noConfusion hok
      | ok u =>
        obtain ⟨nMem, sD⟩ := u
        have hwb : write_back sD s.bus_mem_wb = .error RVError.valueError := by
          rw [hWb]
          exact write_back_none sD
        exact ⟨sD, cycle_halt_eq s sB sC sD nId nEx nMem hdec hexec hmem hwb⟩

/-- C8: the halt property.  If the four latched buses are all non-sentinel
(no earlier bubble in flight) and instruction fetch misses during a cycle,
then — provided no stage raises an uncaught Python exception — that cycle
and the next three all return `True` while the in-flight instructions ahead
of the bubble drain through MEM and WB, and the cycle after those, exactly
4 cycles after the missing fetch, is the first to return the halt
indication `False`, produced by write-back observing the sentinel on the
MEM/WB bus. -/
theorem c8_halt_exactly_four_cycles_after_miss (s : RiscV)
    (r1 r2 r3 r4 : Bool × RiscV)
    (hIf : s.bus_if_id ≠ none) (hId : s.bus_id_ex ≠ none)
    (hEx : s.bus_ex_mem ≠ none) (hWb : s.bus_mem_wb ≠ none)
    (hmiss : (instruction_fetch s).1 = none)
    (h1 : cycle s = .ok r1) (h2 : cycle r1.2 = .ok r2)
    (h3 : cycle r2.2 = .ok r3) (h4 : cycle r3.2 = .ok r4)
    (h5 : isOkE (cycle r4.2) = true) :
    r1.1 = true ∧ r2.1 = true ∧ r3.1 = true ∧ r4.1 = true ∧
    ∃ s5, cycle r4.2 = .ok (false, s5) := by
  obtain ⟨bI, hbI⟩ := Option.ne_none_iff_exists'.mp hIf
  obtain ⟨bE, hbE⟩ := Option.ne_none_iff_exists'.mp hId
  obtain ⟨bX, hbX⟩ := Option.ne_none_iff_exists'.mp hEx
  obtain ⟨bM, hbM⟩ := Option.ne_none_iff_exists'.mp hWb
  -- the cycle of the miss: all four stages still consume non-sentinel buses
  obtain ⟨nId1, nEx1, nMem1, sB1, sC1, sD1, hdec1, hexec1, hmem1, hb1,
      hIf1, hId1, hEx1, hWb1⟩ := cycle_step_true s bM r1 hbM h1
  rw [hbI] at hdec1
  obtain ⟨x1, hx1⟩ := instruction_decode_some_some _ _ _ _ _ hdec1
  rw [hbE] at hexec1
  obtain ⟨y1, hy1⟩ := execute_some_some _ _ _ _ hexec1
  rw [hbX] at hmem1
  obtain ⟨z1, hz1⟩ := memory_access_some_some _ _ _ _ hmem1
  have hIfN : r1.2.bus_if_id = none := by rw [hIf1, hmiss]
  -- first drain cycle: the bubble moves to ID/EX
  have hWb1some : r1.2.bus_mem_wb = some z1 := by rw [hWb1, hz1]
  obtain ⟨nId2, nEx2, nMem2, sB2, sC2, sD2, hdec2, hexec2, hmem2, hb2,
      hIf2, hId2, hEx2, hWb2⟩ := cycle_step_true r1.2 z1 r2 hWb1some h2
  rw [hIfN, instruction_decode_none] at hdec2
  injection hdec2 with hd2
  have hId2N : nId2 = none := (congrArg Prod.fst hd2).symm
  rw [hId1, hx1] at hexec2
  obtain ⟨y2, hy2⟩ := execute_some_some _ _ _ _ hexec2
  rw [hEx1, hy1] at hmem2
  obtain ⟨z2, hz2⟩ := memory_access_some_some _ _ _ _ hmem2
  -- second drain cycle: the bubble moves to EX/MEM
  have hWb2some : r2.2.bus_mem_wb = some z2 := by rw [hWb2, hz2]
  obtain ⟨nId3, nEx3, nMem3, sB3, sC3, sD3, hdec3, hexec3, hmem3, hb3,
      hIf3, hId3, hEx3, hWb3⟩ := cycle_step_true r2.2 z2 r3 hWb2some h3
  rw [hId2, hId2N, execute_none] at hexec3
  injection hexec3 with he3
  have hEx3N : nEx3 = none := (congrArg Prod.fst he3).symm
  rw [hEx2, hy2] at hmem3
  obtain ⟨z3, hz3⟩ := memory_access_some_some _ _ _ _ hmem3
  -- third drain cycle: the bubble moves to MEM/WB
  have hWb3some : r3.2.bus_mem_wb = some z3 := by rw [hWb3, hz3]
  obtain ⟨nId4, nEx4, nMem4, sB4, sC4, sD4, hdec4, hexec4, hmem4, hb4,
      hIf4, hId4, hEx4, hWb4⟩ := cycle_step_true r3.2 z3 r4 hWb3some h4
  rw [hEx3, hEx3N, memory_access_none] at hmem4
  injection hmem4 with hm4
  have hMem4N : nMem4 = none := (congrArg Prod.fst hm4).symm
  -- fourth drain cycle: write-back meets the sentinel and reports the halt
  have hWb4N : r4.2.bus_mem_wb = none := by rw [hWb4, hMem4N]
  exact ⟨hb1, hb2, hb3, hb4, cycle_step_halt r4.2 hWb4N h5⟩

theorem c8_halt_witness :
    (c8s.bus_if_id ≠ none ∧ c8s.bus_id_ex ≠ none ∧ c8s.bus_ex_mem ≠ none ∧
     c8s.bus_mem_wb ≠ none ∧ (instruction_fetch c8s).1 = none ∧
     cycle c8s = .ok c8r1 ∧ cycle c8r1.2 = .ok c8r2 ∧
     cycle c8r2.2 = .ok c8r3 ∧ cycle c8r3.2 = .ok c8r4 ∧
     isOkE (cycle c8r4.2) = true) ∧
    (c8r1.1 = true ∧ c8r2.1 = true ∧ c8r3.1 = true ∧ c8r4.1 = true ∧
     ∃ s5, cycle c8r4.2 = .ok (false, s5)) :=
  ⟨⟨by decide, by decide, by decide, by decide, by decide,
    rfl, rfl, rfl, rfl, by decide⟩,
   c8_halt_exactly_four_cycles_after_miss c8s c8r1 c8r2 c8r3 c8r4
     (by decide) (by decide) (by decide) (by decide) (by decide)
     rfl rfl rfl rfl (by decide)⟩

theorem set_opcode_unrecognized (c : ControlUnit) (opcode : Nat)
    (h51 : opcode ≠ 0b0110011) (h3 : opcode ≠ 0b0000011)
    (h35 : opcode ≠ 0b0100011) (h99 : opcode ≠ 0b1100011)
    (h19 : opcode ≠ 0b0010011) :
    ControlUnit.set_opcode c opcode = c := by
  unfold ControlUnit.set_opcode
  split <;> first | rfl | omega

theorem memory_access_default_noop (sM : RiscV) (off : Int) (z : Bool)
    (ar : RVal) (r2 : Int) (rdM : Nat) (insM : List Char) :
    ∃ nbm s2, memory_access sM (some
        { control := {}, offset := off, zero := z, alu_result := ar,
          rr_2 := r2, rd := rdM, instruction := insM }) = .ok (some nbm, s2) ∧
      s2.data_mem = sM.data_mem ∧ s2.pc_src = false ∧
      s2.registers = sM.registers := by
  cases z <;> exact ⟨_, _, rfl, rfl, rfl, rfl⟩

theorem decode_defaultwb_shape (s : RiscV) (bI : BusIfId)
    (dm arW : RVal) (rdW : Nat) (insW : List Char) :
    (∃ e, instruction_decode s (some bI)
      (some { control := {}, dmem_read_data := dm, alu_result := arW,
              rd := rdW, instruction := insW }) = .error e) ∨
    (∃ nb, instruction_decode s (some bI)
      (some { control := {}, dmem_read_data := dm, alu_result := arW,
              rd := rdW, instruction := insW }) =
      .ok (nb, { s with registers :=
        { regs := s.registers.regs,
          read_data_1 := binToNat (strSlice bI.instruction 12 17),
          read_data_2 := binToNat (strSlice bI.instruction 7 12) } })) := by
  cases hres : imm_select bI.instruction with
  | error e => exact Or.inl ⟨e, by simp only [instruction_decode, hres]⟩
  | ok imm =>
    exact Or.inr ⟨_, by
      simp only [instruction_decode, hres]
      rfl⟩

/-- C10: an opcode outside the five recognized values leaves every control
signal at its constructor default (`set_opcode` only logs), and such an
instruction flows through the pipeline as a no-op: a memory stage driven by
the default control record leaves data memory untouched and does not take a
branch, and a decode stage applying a default-control MEM/WB bus performs
no register write. -/
theorem c10_unrecognized_noop (opcode : Nat) (sM s sD : RiscV)
    (off : Int) (z : Bool) (ar : RVal) (r2 : Int) (rdM : Nat)
    (insM : List Char) (bI : BusIfId) (dm arW : RVal) (rdW : Nat)
    (insW : List Char) (nb : Option BusIdEx)
    (h51 : opcode ≠ 0b0110011) (h3 : opcode ≠ 0b0000011)
    (h35 : opcode ≠ 0b0100011) (h99 : opcode ≠ 0b1100011)
    (h19 : opcode ≠ 0b0010011)
    (hdec : instruction_decode s (some bI)
      (some { control := {}, dmem_read_data := dm, alu_result := arW,
              rd := rdW, instruction := insW }) = .ok (nb, sD)) :
    ControlUnit.set_opcode {} opcode = ({} : ControlUnit) ∧
    (ControlUnit.set_opcode {} opcode).reg_write = false ∧
    (ControlUnit.set_opcode {} opcode).mem_read = false ∧
    (ControlUnit.set_opcode {} opcode).mem_write = false ∧
    (ControlUnit.set_opcode {} opcode).branch = false ∧
    (∃ nbm s2, memory_access sM (some
        { control := {}, offset := off, zero := z, alu_result := ar,
          rr_2 := r2, rd := rdM, instruction := insM }) = .ok (some nbm, s2) ∧
      s2.data_mem = sM.data_mem ∧ s2.pc_src = false ∧
      s2.registers = sM.registers) ∧
    sD.registers.regs = s.registers.regs := by
  have hd := set_opcode_unrecognized {} opcode h51 h3 h35 h99 h19
  refine ⟨hd, by rw [hd], by rw [hd], by rw [hd], by rw [hd],
    memory_access_default_noop sM off z ar r2 rdM insM, ?_⟩
  rcases decode_defaultwb_shape s bI dm arW rdW insW with ⟨e, he⟩ | ⟨nb0, hok⟩
  · rw [he] at hdec
    exact Except.noConfusion hdec
  · rw [hok] at hdec
    injection hdec with h1
    injection h1 with ha hb
    rw [← hb]

theorem c10_unrecognized_noop_witness :
    ((127 : Nat) ≠ 0b0110011 ∧ (127 : Nat) ≠ 0b0000011 ∧
     (127 : Nat) ≠ 0b0100011 ∧ (127 : Nat) ≠ 0b1100011 ∧
     (127 : Nat) ≠ 0b0010011 ∧
     instruction_decode c1Init (some c10bI) (some c10mwb) =
       .ok (c10dec.1, c10dec.2)) ∧
    (ControlUnit.set_opcode {} 127 = ({} : ControlUnit) ∧
     (ControlUnit.set_opcode {} 127).reg_write = false ∧
     (ControlUnit.set_opcode {} 127).mem_read = false ∧
     (ControlUnit.set_opcode {} 127).mem_write = false ∧
     (ControlUnit.set_opcode {} 127).branch = false ∧
     (∃ nbm s2, memory_access c1Init (some
         { control := {}, offset := 0, zero := false, alu_result := .reg 0,
           rr_2 := 0, rd := 0, instruction := zeros32 }) = .ok (some nbm, s2) ∧
       s2.data_mem = c1Init.data_mem ∧ s2.pc_src = false ∧
       s2.registers = c1Init.registers) ∧
     c10dec.2.registers.regs = c1Init.registers.regs) :=
  ⟨⟨by decide, by decide, by decide, by decide, by decide, rfl⟩,
   c10_unrecognized_noop 127 c1Init c1Init c10dec.2 0 false (.reg 0) 0 0
     zeros32 c10bI (.reg 0) (.reg 0) 0 zeros32 c10dec.1
     (by decide) (by decide) (by decide) (by decide) (by decide) rfl⟩
